import Mathlib

/-!
Verification of the ragmine repository's core logic.

The definitions below are a shallow embedding of the Python sources:

* `RagService` embeds `src/rag_service/app.py` — the lexical scoring and
  ranking function `simple_search` together with the `/search` endpoint's
  response construction.  Python floats are modelled as rationals (the
  scoring arithmetic is plain addition of the constants 0.8 / 0.5 / 0.3 /
  0.1), Python's stable `list.sort(key=..., reverse=True)` as a stable
  descending insertion sort, and Python's slice `results[:max_results]`
  (including its behaviour on negative bounds) as `pyTakeTo`.

* `IntegrationTest` embeds `src/tests/test_integration.py` — the metric
  calculations `calculate_relevance_score` and `calculate_metrics`, and the
  aggregation `generate_report`.  A Python `ZeroDivisionError` is modelled
  by `Except`: `pyDiv` fails exactly when the divisor is zero, as Python's
  true division does.
-/

set_option maxRecDepth 40000

/-- Python `str.lower()` on the character list of a string (ASCII case
folding; the corpus and queries in the repository are ASCII). -/
def pyLower (s : String) : List Char := s.toList.map Char.toLower

/-- Worker for `pySplit`: accumulates the current word reversed. -/
def splitWsAux : List Char → List Char → List (List Char)
  | [], acc => if acc.isEmpty then [] else [acc.reverse]
  | c :: cs, acc =>
    if c.isWhitespace then
      if acc.isEmpty then splitWsAux cs [] else acc.reverse :: splitWsAux cs []
    else splitWsAux cs (c :: acc)

/-- Python `str.split()` with no argument: split on runs of whitespace,
discarding empty words.  The empty string yields the empty word list. -/
def pySplit (l : List Char) : List (List Char) := splitWsAux l []

/-- Python slice `l[:n]`: for `n ≥ 0` the first `n` elements; a negative `n`
counts from the end (`l[:-1]` drops the last element), clamped at `0`. -/
def pyTakeTo (n : ℤ) (l : List α) : List α :=
  l.take (if n < 0 then (l.length : ℤ) + n else n).toNat

/-- Python `needle in haystack` on strings: substring containment, here on
character lists.  The empty needle is contained in every haystack, exactly
as in Python. -/
def pyIn (needle haystack : List Char) : Bool := decide (needle <:+: haystack)

namespace RagService

/-- A value of a document's open `metadata` mapping (the mock corpus uses
strings and lists of strings). -/
inductive MetaVal where
  | str : String → MetaVal
  | strList : List String → MetaVal
deriving DecidableEq

/-- A corpus document as `simple_search` consumes it: the dict shape of
`MOCK_DOCUMENTS` in `src/rag_service/app.py`. -/
structure Document where
  id : String
  title : String
  content : String
  source : String
  metadata : List (String × MetaVal)
deriving DecidableEq

/-- Pydantic model `SearchResult` of `src/rag_service/app.py`. -/
structure SearchResult where
  id : String
  title : String
  content : String
  score : ℚ
  source : String
  metadata : List (String × MetaVal)
deriving DecidableEq

/-- The score `simple_search` accumulates for one document: starts at `0.0`,
adds `0.8` when the lowercased query is a substring of the lowercased title,
`0.5` when it is a substring of the lowercased content, then for each
whitespace-separated word of the query adds `0.3` for a title match and
`0.1` for a content match.  Python's `in` on strings is substring
containment, which `List.isInfixOf` captures (the empty string is a
substring of every string). -/
def scoreDoc (query_lower : List Char) (doc : Document) : ℚ :=
  let title_lower := pyLower doc.title
  let content_lower := pyLower doc.content
  let score : ℚ := 0
  let score := if pyIn query_lower title_lower then score + 0.8 else score
  let score := if pyIn query_lower content_lower then score + 0.5 else score
  let query_words := pySplit query_lower
  query_words.foldl (fun score word =>
    let score := if pyIn word title_lower then score + 0.3 else score
    if pyIn word content_lower then score + 0.1 else score) score

/-- The `SearchResult` record `simple_search` appends for a matching
document: the content is display-truncated to 200 characters with an
ellipsis marker, after scoring. -/
def mkSearchResult (doc : Document) (score : ℚ) : SearchResult :=
  { id := doc.id
    title := doc.title
    content :=
      if 200 < doc.content.length then String.mk (doc.content.toList.take 200) ++ "..."
      else doc.content
    score := score
    source := doc.source
    metadata := doc.metadata }

/-- The `results` list `simple_search` builds before sorting: one
`SearchResult` per document whose score is strictly positive, in corpus
order. -/
def scoredResults (query_lower : List Char) (corpus : List Document) : List SearchResult :=
  corpus.filterMap (fun doc =>
    let score := scoreDoc query_lower doc
    if 0 < score then some (mkSearchResult doc score) else none)

/-- The ordering `results.sort(key=lambda x: x.score, reverse=True)` sorts
by: `a` comes no later than `b` when `a`'s score is at least `b`'s. -/
def scoreGE (a b : SearchResult) : Prop := b.score ≤ a.score

instance : DecidableRel scoreGE := fun a b => inferInstanceAs (Decidable (b.score ≤ a.score))

instance : IsTotal SearchResult scoreGE := ⟨fun a b => le_total b.score a.score⟩

instance : IsTrans SearchResult scoreGE := ⟨fun _ _ _ h1 h2 => le_trans h2 h1⟩

/-- `simple_search` of `src/rag_service/app.py`, generalized over the corpus
it scans (the source reads the module-level `MOCK_DOCUMENTS`): score every
document, keep the strictly positive ones in corpus order, stable-sort by
score descending (Python's `list.sort` is stable, also with
`reverse=True`), and truncate with the Python slice `[:max_results]`. -/
def simple_search (corpus : List Document) (query : String) (max_results : ℤ) :
    List SearchResult :=
  let query_lower := pyLower query
  let results := scoredResults query_lower corpus
  pyTakeTo max_results (results.insertionSort scoreGE)

/-- First mock document (`issue-1001`) of `src/rag_service/app.py`. -/
def mockDoc1 : Document :=
  { id := "issue-1001"
    title := "API Authentication Timeout Issues"
    content := "Users experiencing timeout errors when authenticating via API. Symptoms include 504 Gateway Timeout errors, authentication requests taking >30 seconds, intermittent failures during peak hours."
    source := "issue"
    metadata := [("priority", .str "High"), ("status", .str "Resolved"),
                 ("tags", .strList ["api", "authentication", "timeout"])] }

/-- Second mock document (`issue-1002`) of `src/rag_service/app.py`. -/
def mockDoc2 : Document :=
  { id := "issue-1002"
    title := "Database Query Performance Degradation"
    content := "Search queries running significantly slower than expected. Performance metrics show simple searches taking 2-5 seconds, complex searches 10-15 seconds, database CPU usage 80-90%."
    source := "issue"
    metadata := [("priority", .str "High"), ("status", .str "Open"),
                 ("tags", .strList ["database", "performance", "search"])] }

/-- Third mock document (`wiki-api-docs`) of `src/rag_service/app.py`. -/
def mockDoc3 : Document :=
  { id := "wiki-api-docs"
    title := "API Documentation"
    content := "Complete API documentation including authentication methods, common endpoints, error handling, and rate limiting information."
    source := "wiki"
    metadata := [("category", .str "documentation"),
                 ("tags", .strList ["api", "authentication", "endpoints"])] }

/-- Fourth mock document (`wiki-troubleshooting`) of `src/rag_service/app.py`. -/
def mockDoc4 : Document :=
  { id := "wiki-troubleshooting"
    title := "Troubleshooting Guide"
    content := "Common issues and solutions including authentication problems, performance issues, search not working, and getting help procedures."
    source := "wiki"
    metadata := [("category", .str "support"),
                 ("tags", .strList ["troubleshooting", "authentication", "performance"])] }

/-- The module-level mock corpus `MOCK_DOCUMENTS` of
`src/rag_service/app.py`, verbatim (split into the four named documents
above). -/
def MOCK_DOCUMENTS : List Document := [mockDoc1, mockDoc2, mockDoc3, mockDoc4]

/-- Pydantic model `SearchRequest` of `src/rag_service/app.py`. -/
structure SearchRequest where
  query : String
  project : Option String := none
  max_results : ℤ := 20
  filters : Option (List (String × MetaVal)) := none
deriving DecidableEq

/-- Pydantic model `SearchResponse` of `src/rag_service/app.py`. -/
structure SearchResponse where
  query : String
  results : List SearchResult
  total_count : ℕ
  response_time : ℚ
  method : String := "rag"
deriving DecidableEq

/-- The `/search` endpoint's successful response construction: the measured
wall-clock `response_time` is an input to the model. -/
def search (request : SearchRequest) (response_time : ℚ) : SearchResponse :=
  let results := simple_search MOCK_DOCUMENTS request.query request.max_results
  { query := request.query
    results := results
    total_count := results.length
    response_time := response_time
    method := "rag" }

end RagService

/-- A Python runtime failure of the evaluation harness: a true division
whose divisor is zero raises `ZeroDivisionError`.  `noResults` names the
`NoResults` condition the specification assigns to an evaluation run in
which zero queries completed. -/
inductive PyError where
  | zeroDivisionError
  | noResults
deriving DecidableEq

/-- Python true division `a / b`: raises `ZeroDivisionError` when `b = 0`. -/
def pyDiv (a b : ℚ) : Except PyError ℚ :=
  if b = 0 then .error .zeroDivisionError else .ok (a / b)

namespace IntegrationTest

/-- One loosely-typed result item of a backend response, exposing the
`title` and `description` keys that `calculate_relevance_score` reads via
`item.get(..., '')` (a missing key defaults to the empty string). -/
structure ResultItem where
  title : Option String := none
  description : Option String := none
deriving DecidableEq

/-- Dataclass `SearchResult` of `src/tests/test_integration.py` (the
MethodOutcome of the spec). -/
structure SearchResult where
  query : String
  results : List ResultItem
  response_time : ℚ
  total_count : ℤ
  method : String
deriving DecidableEq

/-- Dataclass `TestMetrics` of `src/tests/test_integration.py`. -/
structure TestMetrics where
  precision : ℚ
  «recall» : ℚ
  response_time : ℚ
  relevance_score : ℚ
  user_satisfaction : ℚ
deriving DecidableEq

/-- The lowercased concatenation
`f"{item.get('title', '')} {item.get('description', '')}".lower()` that
`calculate_relevance_score` matches keywords against. -/
def itemContent (item : ResultItem) : List Char :=
  pyLower ((item.title.getD ("")) ++ " " ++ (item.description.getD ("")))

/-- The inner keyword loop of `calculate_relevance_score`: starting from
`0.0`, add `1.0` for each expected keyword whose lowercase form occurs as a
substring of `content`. -/
def countKeywordMatches (expected_keywords : List String) (content : List Char) : ℚ :=
  expected_keywords.foldl (fun item_score keyword =>
    if pyIn (pyLower keyword) content then item_score + 1.0 else item_score) 0

/-- The outer item loop of `calculate_relevance_score`: for each result
item, normalize its keyword-match count by `len(expected_keywords)` (a
Python division, raising on an empty keyword list) and accumulate. -/
def relevanceLoop (expected_keywords : List String) :
    List ResultItem → ℚ → Except PyError ℚ
  | [], total_score => .ok total_score
  | item :: rest, total_score =>
    match pyDiv (countKeywordMatches expected_keywords (itemContent item))
        (expected_keywords.length : ℚ) with
    | .error e => .error e
    | .ok item_score => relevanceLoop expected_keywords rest (total_score + item_score)

/-- `calculate_relevance_score` of `src/tests/test_integration.py`: `0.0`
for an outcome with no results, otherwise the accumulated per-item scores
averaged over the number of result items. -/
def calculate_relevance_score (result : SearchResult) (expected_keywords : List String) :
    Except PyError ℚ :=
  if result.results = [] then .ok 0
  else
    match relevanceLoop expected_keywords result.results 0 with
    | .error e => .error e
    | .ok total_score => pyDiv total_score (result.results.length : ℚ)

/-- `calculate_metrics` of `src/tests/test_integration.py`: relevance via
`calculate_relevance_score`, precision as `min(relevance, 1.0)`, recall as
`min(total_count / 10.0, 1.0)`, and satisfaction as
`max(0, precision - response_time / 10.0)`, for the baseline and the rag
outcome.  The constant divisors `10.0` are nonzero, so those divisions are
plain rational division. -/
def calculate_metrics (baseline rag : SearchResult) (expected_keywords : List String) :
    Except PyError (TestMetrics × TestMetrics) :=
  match calculate_relevance_score baseline expected_keywords with
  | .error e => .error e
  | .ok baseline_relevance =>
  match calculate_relevance_score rag expected_keywords with
  | .error e => .error e
  | .ok rag_relevance =>
  let baseline_precision := min baseline_relevance 1.0
  let rag_precision := min rag_relevance 1.0
  let baseline_recall := min ((baseline.total_count : ℚ) / 10.0) 1.0
  let rag_recall := min ((rag.total_count : ℚ) / 10.0) 1.0
  let baseline_satisfaction := max 0 (baseline_precision - baseline.response_time / 10.0)
  let rag_satisfaction := max 0 (rag_precision - rag.response_time / 10.0)
  .ok
    ( { precision := baseline_precision
        «recall» := baseline_recall
        response_time := baseline.response_time
        relevance_score := baseline_relevance
        user_satisfaction := baseline_satisfaction }
    , { precision := rag_precision
        «recall» := rag_recall
        response_time := rag.response_time
        relevance_score := rag_relevance
        user_satisfaction := rag_satisfaction } )

/-- The per-query `improvement` dict of `run_comparison_test`: candidate
minus baseline for precision/recall/relevance, baseline time minus
candidate time for response time. -/
structure Improvement where
  precision : ℚ
  «recall» : ℚ
  relevance : ℚ
  response_time : ℚ
deriving DecidableEq

/-- One element of the `test_results` list handed to `generate_report`: the
dict `run_comparison_test` returns. -/
structure TestResult where
  query : String
  type : String
  baseline : SearchResult
  rag : SearchResult
  metrics : TestMetrics × TestMetrics
  improvement : Improvement
deriving DecidableEq

/-- The `summary` mapping of the report. -/
structure ReportSummary where
  total_tests : ℕ
  precision_improvement : ℚ
  recall_improvement : ℚ
  relevance_improvement : ℚ
  response_time_improvement : ℚ
deriving DecidableEq

/-- The `improvements` mapping of the report: each dimension's tally
formatted as the string `"k/n queries"`. -/
structure ReportImprovements where
  precision : String
  «recall» : String
  relevance : String
  speed : String
deriving DecidableEq

/-- The report `generate_report` returns. -/
structure Report where
  summary : ReportSummary
  improvements : ReportImprovements
  detailed_results : List TestResult
deriving DecidableEq

/-- The f-string `f"{k}/{n} queries"` used for each improvement tally. -/
def countQueries (k n : ℕ) : String :=
  toString k ++ "/" ++ toString n ++ " queries"

/-- `generate_report` of `src/tests/test_integration.py`: averages each
improvement dimension over `total_tests` (a Python division — it raises
`ZeroDivisionError` when the list of completed results is empty), counts
the queries with a strictly positive delta per dimension, and assembles the
report. -/
def generate_report (test_results : List TestResult) : Except PyError Report :=
  let total_tests := test_results.length
  match pyDiv ((test_results.map (fun r => r.improvement.precision)).sum) (total_tests : ℚ) with
  | .error e => .error e
  | .ok avg_precision_improvement =>
  match pyDiv ((test_results.map (fun r => r.improvement.«recall»)).sum) (total_tests : ℚ) with
  | .error e => .error e
  | .ok avg_recall_improvement =>
  match pyDiv ((test_results.map (fun r => r.improvement.relevance)).sum) (total_tests : ℚ) with
  | .error e => .error e
  | .ok avg_relevance_improvement =>
  match pyDiv ((test_results.map (fun r => r.improvement.response_time)).sum) (total_tests : ℚ) with
  | .error e => .error e
  | .ok avg_response_time_improvement =>
  let precision_improvements := test_results.countP (fun r => decide (0 < r.improvement.precision))
  let recall_improvements := test_results.countP (fun r => decide (0 < r.improvement.recall))
  let relevance_improvements := test_results.countP (fun r => decide (0 < r.improvement.relevance))
  let speed_improvements := test_results.countP (fun r => decide (0 < r.improvement.response_time))
  .ok
    { summary :=
        { total_tests := total_tests
          precision_improvement := avg_precision_improvement
          recall_improvement := avg_recall_improvement
          relevance_improvement := avg_relevance_improvement
          response_time_improvement := avg_response_time_improvement }
      improvements :=
        { precision := countQueries precision_improvements total_tests
          «recall» := countQueries recall_improvements total_tests
          relevance := countQueries relevance_improvements total_tests
          speed := countQueries speed_improvements total_tests }
      detailed_results := test_results }

end IntegrationTest

namespace RagService

/-- `scoredResults` unfolded one document at a time. -/
theorem scoredResults_cons (ql : List Char) (d : Document) (ds : List Document) :
    scoredResults ql (d :: ds) =
      if 0 < scoreDoc ql d then mkSearchResult d (scoreDoc ql d) :: scoredResults ql ds
      else scoredResults ql ds := by
  by_cases hs : 0 < scoreDoc ql d <;> simp [scoredResults, List.filterMap_cons, hs]

/-- Every entry of the pre-sort result list is the record of a corpus
document whose score is strictly positive. -/
theorem mem_scoredResults {r : SearchResult} {ql : List Char} :
    ∀ {corpus : List Document}, r ∈ scoredResults ql corpus →
      ∃ d ∈ corpus, 0 < scoreDoc ql d ∧ r = mkSearchResult d (scoreDoc ql d) := by
  intro corpus
  induction corpus with
  | nil => intro h; cases h
  | cons d ds ih =>
    rw [scoredResults_cons]
    by_cases hs : 0 < scoreDoc ql d
    · rw [if_pos hs]
      intro h
      rcases List.mem_cons.mp h with h | h
      · exact ⟨d, List.mem_cons_self d ds, hs, h⟩
      · obtain ⟨d', hd', hs', he⟩ := ih h
        exact ⟨d', List.mem_cons_of_mem d hd', hs', he⟩
    · rw [if_neg hs]
      intro h
      obtain ⟨d', hd', hs', he⟩ := ih h
      exact ⟨d', List.mem_cons_of_mem d hd', hs', he⟩

/-- The `score > 0` filter of `simple_search` admits only strictly positive
scores. -/
theorem score_pos_of_mem_scoredResults {r : SearchResult} {ql : List Char}
    {corpus : List Document} (h : r ∈ scoredResults ql corpus) : 0 < r.score := by
  obtain ⟨d, -, hs, he⟩ := mem_scoredResults h
  rw [he]
  exact hs

/-- The pre-sort result list is exactly as long as the sublist of the
corpus with strictly positive score. -/
theorem scoredResults_length (ql : List Char) (corpus : List Document) :
    (scoredResults ql corpus).length =
      (corpus.filter (fun d => decide (0 < scoreDoc ql d))).length := by
  induction corpus with
  | nil => rfl
  | cons d ds ih =>
    rw [scoredResults_cons, List.filter_cons]
    by_cases hs : 0 < scoreDoc ql d <;> simp [hs, ih]

/-- The Python slice `[:n]` yields a sublist (in fact a prefix). -/
theorem pyTakeTo_sublist (n : ℤ) (l : List α) : (pyTakeTo n l).Sublist l :=
  List.take_sublist _ _

/-- Inserting into the stable descending sort commutes with filtering by an
exact score: the tie-breaking of `orderedInsert` under `scoreGE` places the
inserted element before every equal-scored element. -/
theorem filter_orderedInsert_score (q : ℚ) (x : SearchResult) (l : List SearchResult) :
    (List.orderedInsert scoreGE x l).filter (fun r => decide (r.score = q)) =
      ((x :: l).filter (fun r => decide (r.score = q))) := by
  induction l with
  | nil => rfl
  | cons y ys ih =>
    rw [List.orderedInsert]
    by_cases hxy : scoreGE x y
    · rw [if_pos hxy]
    · rw [if_neg hxy]
      have hlt : x.score < y.score := lt_of_not_le hxy
      by_cases hy : y.score = q
      · have hx : ¬ x.score = q := by
          intro hx
          rw [hx, hy] at hlt
          exact lt_irrefl q hlt
        simp [List.filter_cons, hx, hy, ih]
      · by_cases hx : x.score = q <;> simp [List.filter_cons, hx, hy, ih]

/-- The stable descending sort of `simple_search` commutes with filtering
by an exact score: the elements of any one score keep their original
relative order (stability of Python's `list.sort`). -/
theorem filter_insertionSort_score (q : ℚ) (l : List SearchResult) :
    (l.insertionSort scoreGE).filter (fun r => decide (r.score = q)) =
      l.filter (fun r => decide (r.score = q)) := by
  induction l with
  | nil => rfl
  | cons x xs ih =>
    rw [List.insertionSort, filter_orderedInsert_score]
    simp [List.filter_cons, ih]

/-- `simple_search` unfolded to its three stages. -/
theorem simple_search_eq (corpus : List Document) (query : String) (max_results : ℤ) :
    simple_search corpus query max_results =
      pyTakeTo max_results ((scoredResults (pyLower query) corpus).insertionSort scoreGE) :=
  rfl

/-- The word loop of `scoreDoc` accumulates the per-word additive
contributions on top of its initial value. -/
theorem foldl_word_scores (tl cl : List Char) (words : List (List Char)) (init : ℚ) :
    words.foldl (fun score word =>
        let score := if pyIn word tl then score + 0.3 else score
        if pyIn word cl then score + 0.1 else score) init =
      init + (words.map (fun w =>
        (if pyIn w tl then (0.3 : ℚ) else 0) + (if pyIn w cl then (0.1 : ℚ) else 0))).sum := by
  induction words generalizing init with
  | nil => simp
  | cons w ws ih =>
    rw [List.foldl_cons, ih, List.map_cons, List.sum_cons]
    by_cases h1 : pyIn w tl <;> by_cases h2 : pyIn w cl <;> simp [h1, h2] <;> ring

/-- The accumulated score of `scoreDoc` in closed additive form. -/
theorem scoreDoc_formula (query : String) (doc : Document) :
    scoreDoc (pyLower query) doc =
      (if pyIn (pyLower query) (pyLower doc.title) then (0.8 : ℚ) else 0) +
        (if pyIn (pyLower query) (pyLower doc.content) then (0.5 : ℚ) else 0) +
        ((pySplit (pyLower query)).map (fun w =>
          (if pyIn w (pyLower doc.title) then (0.3 : ℚ) else 0) +
            (if pyIn w (pyLower doc.content) then (0.1 : ℚ) else 0))).sum := by
  simp only [scoreDoc]
  rw [foldl_word_scores]
  by_cases h1 : pyIn (pyLower query) (pyLower doc.title) <;>
    by_cases h2 : pyIn (pyLower query) (pyLower doc.content) <;>
      simp [h1, h2]

/-- The empty needle is a substring of everything, as in Python. -/
theorem pyIn_nil (hay : List Char) : pyIn [] hay = true := by
  simp only [pyIn, decide_eq_true_eq]
  exact List.nil_infix

/-- With the empty query, both containment tests succeed and the word list
is empty, so every document scores `0.8 + 0.5 = 1.3`. -/
theorem scoreDoc_empty_query (doc : Document) : scoreDoc (pyLower ("")) doc = 1.3 := by
  rw [scoreDoc_formula]
  rw [show pyLower ("") = ([] : List Char) from rfl]
  rw [pyIn_nil, pyIn_nil]
  rw [show pySplit ([] : List Char) = [] from rfl]
  norm_num

/-- C3: for every query, corpus and max_results, the ranked sequence has
non-increasing scores, and the returned results of any one exact score are
a sublist of the positively-scored documents of that score in corpus order
(stable sort, deterministic output). -/
theorem simple_search_sorted_and_stable (query : String) (corpus : List Document)
    (max_results : ℤ) :
    (simple_search corpus query max_results).Pairwise scoreGE ∧
      ∀ q : ℚ,
        ((simple_search corpus query max_results).filter
            (fun r => decide (r.score = q))).Sublist
          ((scoredResults (pyLower query) corpus).filter (fun r => decide (r.score = q))) := by
  rw [simple_search_eq]
  constructor
  · exact List.Pairwise.sublist (pyTakeTo_sublist _ _) (List.sorted_insertionSort scoreGE _)
  · intro q
    have h2 := (pyTakeTo_sublist max_results
        ((scoredResults (pyLower query) corpus).insertionSort scoreGE)).filter
      (fun r => decide (r.score = q))
    rwa [filter_insertionSort_score] at h2

/-- C4: for every query, corpus and non-negative max_results, every
returned result has a strictly positive score, and the number of returned
results is the minimum of max_results and the number of corpus documents
with strictly positive score. -/
theorem simple_search_scores_pos_and_length (query : String) (corpus : List Document)
    (max_results : ℤ) (h : 0 ≤ max_results) :
    (∀ r ∈ simple_search corpus query max_results, 0 < r.score) ∧
      (simple_search corpus query max_results).length =
        min max_results.toNat
          ((corpus.filter (fun d => decide (0 < scoreDoc (pyLower query) d))).length) := by
  rw [simple_search_eq]
  constructor
  · intro r hr
    have hr2 : r ∈ (scoredResults (pyLower query) corpus).insertionSort scoreGE :=
      (pyTakeTo_sublist _ _).subset hr
    rw [List.mem_insertionSort] at hr2
    exact score_pos_of_mem_scoredResults hr2
  · rw [pyTakeTo, if_neg (not_lt.mpr h), List.length_take, List.length_insertionSort,
      scoredResults_length]

/-- C4 witness: the query `"api"` over the mock corpus with max_results 1. -/
theorem simple_search_scores_pos_and_length_witness :
    (0 : ℤ) ≤ 1 ∧
      ((∀ r ∈ simple_search MOCK_DOCUMENTS ("api") 1, 0 < r.score) ∧
        (simple_search MOCK_DOCUMENTS ("api") 1).length =
          min (1 : ℤ).toNat
            ((MOCK_DOCUMENTS.filter
              (fun d => decide (0 < scoreDoc (pyLower ("api")) d))).length)) :=
  ⟨by decide, simple_search_scores_pos_and_length ("api") MOCK_DOCUMENTS 1 (by decide)⟩

/-- The query `"api"` occurs in the title and the content of the first mock
document, and it is its only query word, so the document scores
`0.8 + 0.5 + 0.3 + 0.1 = 1.7`. -/
theorem scoreDoc_api_mockDoc1 : scoreDoc (pyLower ("api")) mockDoc1 = 1.7 := by
  rw [scoreDoc_formula]
  norm_num [show pySplit (pyLower ("api")) = [pyLower ("api")] from by decide,
    show pyIn (pyLower ("api")) (pyLower mockDoc1.title) = true from by decide,
    show pyIn (pyLower ("api")) (pyLower mockDoc1.content) = true from by decide]

/-- The query `"api"` occurs nowhere in the second mock document. -/
theorem scoreDoc_api_mockDoc2 : scoreDoc (pyLower ("api")) mockDoc2 = 0 := by
  rw [scoreDoc_formula]
  norm_num [show pySplit (pyLower ("api")) = [pyLower ("api")] from by decide,
    show pyIn (pyLower ("api")) (pyLower mockDoc2.title) = false from by decide,
    show pyIn (pyLower ("api")) (pyLower mockDoc2.content) = false from by decide]

/-- The query `"api"` occurs in the title and the content of the third mock
document. -/
theorem scoreDoc_api_mockDoc3 : scoreDoc (pyLower ("api")) mockDoc3 = 1.7 := by
  rw [scoreDoc_formula]
  norm_num [show pySplit (pyLower ("api")) = [pyLower ("api")] from by decide,
    show pyIn (pyLower ("api")) (pyLower mockDoc3.title) = true from by decide,
    show pyIn (pyLower ("api")) (pyLower mockDoc3.content) = true from by decide]

/-- The query `"api"` occurs nowhere in the fourth mock document. -/
theorem scoreDoc_api_mockDoc4 : scoreDoc (pyLower ("api")) mockDoc4 = 0 := by
  rw [scoreDoc_formula]
  norm_num [show pySplit (pyLower ("api")) = [pyLower ("api")] from by decide,
    show pyIn (pyLower ("api")) (pyLower mockDoc4.title) = false from by decide,
    show pyIn (pyLower ("api")) (pyLower mockDoc4.content) = false from by decide]

/-- Exactly the first and third mock documents score positively for the
query `"api"`. -/
theorem filter_api_mock :
    MOCK_DOCUMENTS.filter (fun d => decide (0 < scoreDoc (pyLower ("api")) d)) =
      [mockDoc1, mockDoc3] := by
  rw [show MOCK_DOCUMENTS = [mockDoc1, mockDoc2, mockDoc3, mockDoc4] from rfl]
  rw [List.filter_cons, List.filter_cons, List.filter_cons, List.filter_cons, List.filter_nil]
  rw [decide_eq_true (show (0 : ℚ) < scoreDoc (pyLower ("api")) mockDoc1 by
    rw [scoreDoc_api_mockDoc1]; norm_num)]
  rw [decide_eq_false (show ¬ (0 : ℚ) < scoreDoc (pyLower ("api")) mockDoc2 by
    rw [scoreDoc_api_mockDoc2]; norm_num)]
  rw [decide_eq_true (show (0 : ℚ) < scoreDoc (pyLower ("api")) mockDoc3 by
    rw [scoreDoc_api_mockDoc3]; norm_num)]
  rw [decide_eq_false (show ¬ (0 : ℚ) < scoreDoc (pyLower ("api")) mockDoc4 by
    rw [scoreDoc_api_mockDoc4]; norm_num)]
  simp

/-- C5 counterexample: `max_results = -1` is `≤ 0`, yet the Python slice
`results[:-1]` keeps one of the two documents matching `"api"`. -/
theorem negative_max_results_not_empty :
    (-1 : ℤ) ≤ 0 ∧ (simple_search MOCK_DOCUMENTS ("api") (-1)).length = 1 := by
  refine ⟨by decide, ?_⟩
  rw [simple_search_eq, pyTakeTo, if_pos (by decide : (-1 : ℤ) < 0), List.length_take,
    List.length_insertionSort, scoredResults_length, filter_api_mock]
  decide

/-- C5 (amended): ranking with `max_results = 0` returns the empty
sequence; a strictly negative max_results follows Python slice semantics
and may return a non-empty prefix. -/
theorem simple_search_zero_max_results (query : String) (corpus : List Document) :
    simple_search corpus query 0 = [] := rfl

/-- C1 (code behavior at the failing input): the empty query scores every
mock document 0.8 + 0.5 = 1.3 — Python's `"" in s` is true for every `s` —
so all four documents are returned instead of none. -/
theorem empty_query_returns_every_document :
    (simple_search MOCK_DOCUMENTS ("") 5).length = 4 ∧
      ∀ r ∈ simple_search MOCK_DOCUMENTS ("") 5, r.score = 1.3 := by
  constructor
  · rw [simple_search_eq, pyTakeTo, if_neg (by decide : ¬ (5 : ℤ) < 0), List.length_take,
      List.length_insertionSort, scoredResults_length]
    rw [List.filter_eq_self.mpr
      (fun d _ => decide_eq_true (show (0 : ℚ) < scoreDoc (pyLower ("")) d by
        rw [scoreDoc_empty_query]; norm_num))]
    decide
  · intro r hr
    rw [simple_search_eq] at hr
    have hr2 := (pyTakeTo_sublist _ _).subset hr
    rw [List.mem_insertionSort] at hr2
    obtain ⟨d, -, -, hd⟩ := mem_scoredResults hr2
    rw [hd]
    show scoreDoc (pyLower ("")) d = 1.3
    exact scoreDoc_empty_query d

/-- C2: the score of a document is the additive sum — 0.8 for the full
lowercased query occurring in the lowercased title, 0.5 for the content,
and per whitespace-separated query word 0.3 for a title occurrence and 0.1
for a content occurrence. -/
theorem scoreDoc_eq_additive_sum (query : String) (doc : Document) :
    scoreDoc (pyLower query) doc =
      (if pyIn (pyLower query) (pyLower doc.title) then (0.8 : ℚ) else 0) +
        (if pyIn (pyLower query) (pyLower doc.content) then (0.5 : ℚ) else 0) +
        ((pySplit (pyLower query)).map (fun w =>
          (if pyIn w (pyLower doc.title) then (0.3 : ℚ) else 0) +
            (if pyIn w (pyLower doc.content) then (0.1 : ℚ) else 0))).sum :=
  scoreDoc_formula query doc

/-- C10: every successfully handled search request yields a response whose
total_count equals the number of returned results, whose echoed query is
the request's query, and whose method tag is `"rag"`. -/
theorem search_response_invariants (request : SearchRequest) (response_time : ℚ) :
    (search request response_time).total_count = (search request response_time).results.length ∧
      (search request response_time).query = request.query ∧
      (search request response_time).method = "rag" :=
  ⟨rfl, rfl, rfl⟩

end RagService

namespace IntegrationTest

/-- The keyword loop counts exactly the matching keywords. -/
theorem countKeywordMatches_eq (expected_keywords : List String) (content : List Char) :
    countKeywordMatches expected_keywords content =
      ((expected_keywords.filter (fun k => pyIn (pyLower k) content)).length : ℚ) := by
  suffices h : ∀ (l : List String) (init : ℚ),
      l.foldl (fun item_score keyword =>
        if pyIn (pyLower keyword) content then item_score + 1.0 else item_score) init =
        init + ((l.filter (fun k => pyIn (pyLower k) content)).length : ℚ) by
    simpa using h expected_keywords 0
  intro l
  induction l with
  | nil => intro init; simp
  | cons k ks ih =>
    intro init
    rw [List.foldl_cons, List.filter_cons]
    by_cases hk : pyIn (pyLower k) content
    · rw [if_pos hk, ih]
      simp only [hk, if_true, List.length_cons]
      push_cast
      ring_nf
    · rw [if_neg hk, ih]
      simp [hk]

/-- With a non-empty keyword list, the item loop of
`calculate_relevance_score` never fails and accumulates the per-item match
fractions. -/
theorem relevanceLoop_ok (expected_keywords : List String) (h : expected_keywords ≠ []) :
    ∀ (items : List ResultItem) (total_score : ℚ),
      relevanceLoop expected_keywords items total_score =
        .ok (total_score + (items.map (fun item =>
          ((expected_keywords.filter
              (fun k => pyIn (pyLower k) (itemContent item))).length : ℚ) /
            (expected_keywords.length : ℚ))).sum) := by
  have hn : ((expected_keywords.length : ℕ) : ℚ) ≠ 0 := by
    have h0 : expected_keywords.length ≠ 0 := by
      simpa [List.length_eq_zero] using h
    exact_mod_cast h0
  intro items
  induction items with
  | nil => intro total; simp [relevanceLoop]
  | cons item rest ih =>
    intro total
    have step : relevanceLoop expected_keywords (item :: rest) total =
        relevanceLoop expected_keywords rest (total +
          ((expected_keywords.filter
              (fun k => pyIn (pyLower k) (itemContent item))).length : ℚ) /
            (expected_keywords.length : ℚ)) := by
      rw [relevanceLoop, countKeywordMatches_eq, pyDiv, if_neg hn]
    rw [step, ih, List.map_cons, List.sum_cons, add_assoc]

/-- C7: with a non-empty keyword list, the relevance score is the average
over all result items of the fraction of expected keywords found
(case-insensitively) as a substring of the item's title-and-description
text; an outcome with zero result items has relevance exactly 0. -/
theorem calculate_relevance_score_eq_average (result : SearchResult)
    (expected_keywords : List String) (h : expected_keywords ≠ []) :
    calculate_relevance_score result expected_keywords =
      .ok (if result.results = [] then 0
        else ((result.results.map (fun item =>
          ((expected_keywords.filter
              (fun k => pyIn (pyLower k) (itemContent item))).length : ℚ) /
            (expected_keywords.length : ℚ))).sum) / (result.results.length : ℚ)) := by
  by_cases hres : result.results = []
  · rw [calculate_relevance_score, if_pos hres, if_pos hres]
  · have hn : ((result.results.length : ℕ) : ℚ) ≠ 0 := by
      have h0 : result.results.length ≠ 0 := by
        simpa [List.length_eq_zero] using hres
      exact_mod_cast h0
    rw [calculate_relevance_score, if_neg hres, if_neg hres,
      relevanceLoop_ok expected_keywords h, zero_add]
    rw [show ∀ t : ℚ, (match (Except.ok t : Except PyError ℚ) with
        | .error e => (Except.error e : Except PyError ℚ)
        | .ok total_score => pyDiv total_score (result.results.length : ℚ)) =
          pyDiv t (result.results.length : ℚ) from fun t => rfl]
    rw [pyDiv, if_neg hn]

/-- C7 witness: one result item whose text contains the single expected
keyword. -/
def w7result : SearchResult :=
  { query := "q"
    results := [{ title := some ("Auth error"), description := none }]
    response_time := 0
    total_count := 1
    method := "rag" }

/-- C7 witness: the claim instantiated at `w7result` and `["auth"]`. -/
theorem calculate_relevance_score_eq_average_witness :
    (["auth"] : List String) ≠ [] ∧
      calculate_relevance_score w7result ["auth"] =
        .ok (if w7result.results = [] then 0
          else ((w7result.results.map (fun item =>
            (((["auth"] : List String).filter
                (fun k => pyIn (pyLower k) (itemContent item))).length : ℚ) /
              ((["auth"] : List String).length : ℚ))).sum) / (w7result.results.length : ℚ)) :=
  ⟨by decide, calculate_relevance_score_eq_average w7result ["auth"] (by decide)⟩

/-- C9: with at least one result item and an empty expected-keywords list,
`calculate_relevance_score` reaches the division by `len(expected_keywords)
= 0` and fails with `ZeroDivisionError`. -/
theorem empty_keywords_division_by_zero (result : SearchResult)
    (h : result.results ≠ []) :
    calculate_relevance_score result [] = .error .zeroDivisionError := by
  rw [calculate_relevance_score, if_neg h]
  obtain ⟨item, rest, hres⟩ : ∃ i r, result.results = i :: r := by
    cases hres : result.results with
    | nil => exact absurd hres h
    | cons i r => exact ⟨i, r, rfl⟩
  rw [hres]
  have hloop : relevanceLoop [] (item :: rest) 0 = .error .zeroDivisionError := by
    rw [relevanceLoop, pyDiv, if_pos (by simp : ((([] : List String).length : ℕ) : ℚ) = 0)]
  rw [hloop]

/-- C9 witness input: an outcome with one result item. -/
def w9result : SearchResult :=
  { query := "q"
    results := [{ title := some ("t"), description := none }]
    response_time := 0
    total_count := 1
    method := "rag" }

/-- C9 witness: the claim instantiated at `w9result`. -/
theorem empty_keywords_division_by_zero_witness :
    w9result.results ≠ [] ∧
      calculate_relevance_score w9result [] = .error .zeroDivisionError :=
  ⟨by decide, empty_keywords_division_by_zero w9result (by decide)⟩

/-- `calculate_metrics` when the baseline relevance computation fails. -/
theorem calculate_metrics_err_left (baseline rag : SearchResult) (kws : List String)
    (e : PyError) (hb : calculate_relevance_score baseline kws = .error e) :
    calculate_metrics baseline rag kws = .error e := by
  rw [calculate_metrics, hb]

/-- `calculate_metrics` when the rag relevance computation fails. -/
theorem calculate_metrics_err_right (baseline rag : SearchResult) (kws : List String)
    (br : ℚ) (e : PyError) (hb : calculate_relevance_score baseline kws = .ok br)
    (hr : calculate_relevance_score rag kws = .error e) :
    calculate_metrics baseline rag kws = .error e := by
  rw [calculate_metrics, hb, hr]

/-- `calculate_metrics` when both relevance computations succeed. -/
theorem calculate_metrics_ok (baseline rag : SearchResult) (kws : List String) (br rr : ℚ)
    (hb : calculate_relevance_score baseline kws = .ok br)
    (hr : calculate_relevance_score rag kws = .ok rr) :
    calculate_metrics baseline rag kws =
      .ok
        ( { precision := min br 1.0
            «recall» := min ((baseline.total_count : ℚ) / 10.0) 1.0
            response_time := baseline.response_time
            relevance_score := br
            user_satisfaction := max 0 (min br 1.0 - baseline.response_time / 10.0) }
        , { precision := min rr 1.0
            «recall» := min ((rag.total_count : ℚ) / 10.0) 1.0
            response_time := rag.response_time
            relevance_score := rr
            user_satisfaction := max 0 (min rr 1.0 - rag.response_time / 10.0) } ) := by
  rw [calculate_metrics, hb, hr]

/-- C8: whenever `calculate_metrics` succeeds, each method's
user_satisfaction equals `max(0, precision - response_time / 10)` and is
therefore non-negative. -/
theorem calculate_metrics_user_satisfaction (baseline rag : SearchResult)
    (expected_keywords : List String) (m : TestMetrics × TestMetrics)
    (h : calculate_metrics baseline rag expected_keywords = .ok m) :
    (m.1.user_satisfaction = max 0 (m.1.precision - baseline.response_time / 10) ∧
        0 ≤ m.1.user_satisfaction) ∧
      (m.2.user_satisfaction = max 0 (m.2.precision - rag.response_time / 10) ∧
        0 ≤ m.2.user_satisfaction) := by
  cases hb : calculate_relevance_score baseline expected_keywords with
  | error e =>
    rw [calculate_metrics_err_left baseline rag expected_keywords e hb] at h
    cases h
  | ok br =>
    cases hr : calculate_relevance_score rag expected_keywords with
    | error e =>
      rw [calculate_metrics_err_right baseline rag expected_keywords br e hb hr] at h
      cases h
    | ok rr =>
      rw [calculate_metrics_ok baseline rag expected_keywords br rr hb hr] at h
      injection h with h2
      subst h2
      refine ⟨⟨?_, le_max_left _ _⟩, ?_, le_max_left _ _⟩
      · show max 0 (min br 1.0 - baseline.response_time / 10.0) =
          max 0 (min br 1.0 - baseline.response_time / 10)
        norm_num
      · show max 0 (min rr 1.0 - rag.response_time / 10.0) =
          max 0 (min rr 1.0 - rag.response_time / 10)
        norm_num

/-- C8 witness input: a degraded outcome with no results and zero elapsed
time. -/
def wOutcome : SearchResult :=
  { query := "q"
    results := []
    response_time := 0
    total_count := 0
    method := "baseline" }

/-- C8 witness metrics: what `calculate_metrics` computes for `wOutcome`. -/
def wMetrics : TestMetrics :=
  { precision := min 0 1.0
    «recall» := min (((0 : ℤ) : ℚ) / 10.0) 1.0
    response_time := (0 : ℚ)
    relevance_score := 0
    user_satisfaction := max 0 (min 0 1.0 - (0 : ℚ) / 10.0) }

/-- C8 witness: the claim instantiated at two degraded outcomes. -/
theorem calculate_metrics_user_satisfaction_witness :
    calculate_metrics wOutcome wOutcome [("k")] = .ok (wMetrics, wMetrics) ∧
      ((wMetrics.user_satisfaction = max 0 (wMetrics.precision - wOutcome.response_time / 10) ∧
          0 ≤ wMetrics.user_satisfaction) ∧
        (wMetrics.user_satisfaction = max 0 (wMetrics.precision - wOutcome.response_time / 10) ∧
          0 ≤ wMetrics.user_satisfaction)) :=
  ⟨rfl, calculate_metrics_user_satisfaction wOutcome wOutcome [("k")] (wMetrics, wMetrics) rfl⟩

/-- C6 counterexample: on the empty list of completed queries,
`generate_report` fails with the division by zero itself, not with a
distinct `NoResults` condition. -/
theorem generate_report_empty_not_noResults :
    generate_report ([] : List TestResult) ≠ Except.error PyError.noResults := by
  intro hcontra
  rw [show generate_report ([] : List TestResult) = Except.error PyError.zeroDivisionError
    from rfl] at hcontra
  injection hcontra with h2
  exact PyError.noConfusion h2

/-- C6 (amended): on the empty list `generate_report` raises
`ZeroDivisionError` (the averages divide by `total_tests = 0`); on every
non-empty list it produces the report whose summary holds the arithmetic
mean of each improvement dimension and whose improvement counts tally the
records with a strictly positive delta. -/
theorem generate_report_characterization (test_results : List TestResult) :
    generate_report test_results =
      if test_results = [] then Except.error PyError.zeroDivisionError
      else Except.ok
        { summary :=
            { total_tests := test_results.length
              precision_improvement :=
                ((test_results.map (fun r => r.improvement.precision)).sum) /
                  (test_results.length : ℚ)
              recall_improvement :=
                ((test_results.map (fun r => r.improvement.«recall»)).sum) /
                  (test_results.length : ℚ)
              relevance_improvement :=
                ((test_results.map (fun r => r.improvement.relevance)).sum) /
                  (test_results.length : ℚ)
              response_time_improvement :=
                ((test_results.map (fun r => r.improvement.response_time)).sum) /
                  (test_results.length : ℚ) }
          improvements :=
            { precision := countQueries
                ((test_results.filter (fun r => decide (0 < r.improvement.precision))).length)
                test_results.length
              «recall» := countQueries
                ((test_results.filter (fun r => decide (0 < r.improvement.«recall»))).length)
                test_results.length
              relevance := countQueries
                ((test_results.filter (fun r => decide (0 < r.improvement.relevance))).length)
                test_results.length
              speed := countQueries
                ((test_results.filter (fun r => decide (0 < r.improvement.response_time))).length)
                test_results.length }
          detailed_results := test_results } := by
  by_cases h : test_results = []
  · subst h; rfl
  · have hn : ((test_results.length : ℕ) : ℚ) ≠ 0 := by
      have h0 : test_results.length ≠ 0 := by
        simpa [List.length_eq_zero] using h
      exact_mod_cast h0
    rw [if_neg h]
    simp only [generate_report, pyDiv, if_neg hn, List.countP_eq_length_filter]

end IntegrationTest
